import Mathlib

/-! ApiRest: the in-memory customer store of `main.go`

A shallow embedding of the five HTTP handlers of `main.go` (`criarCliente`,
`obterClientes`, `obterCliente`, `atualizarCliente`, `deletarCliente`) and of
the package-level map `clientes` they share.

* The Go map `map[string]Cliente` is a `Finmap`: finite, one value per key,
  equal exactly when the same keys hold the same values, and without an order.
* A handler is a function from the map before the call, the response writer and
  the request to the map after the call and the response writer after it.  The
  mutex `clientesMu` makes every map access of a handler one critical section;
  in this sequential embedding `Lock`/`Unlock` have no further effect.
* `encoding/json` is outside the repository: the decoder is a parameter
  `decode`, giving for a request body either the error message of
  `err.Error()` or the decoded `Cliente`; what the encoder writes is kept as
  the value that is encoded.
-/

namespace ApiRest

/-! ## Data model -/

/-- Cliente representa os dados de um cliente (`type Cliente struct`). -/
structure Cliente where
  ID : String
  Nome : String
  Email : String
  deriving DecidableEq, Repr

/-- The type of the package-level variable `clientes`, `map[string]Cliente`. -/
abbrev Mapa := Finmap (fun _ : String => Cliente)

/-- The initial value of the package-level variable: `make(map[string]Cliente)`. -/
def clientes : Mapa := ∅

/-- A Go slice `[]Cliente` filled by a `range` over a map: `none` is the nil
slice, `some s` a non-nil slice with the elements `s`.  The elements are kept up
to order, because the iteration order of a Go map is not specified. -/
abbrev Fatia := Option (Multiset Cliente)

/-- The elements of a slice; the nil slice has none. -/
def Fatia.elementos (s : Fatia) : Multiset Cliente := s.getD 0

/-- Go's `append(s, c)` for one element: the result is never nil. -/
def append (s : Fatia) (c : Cliente) : Fatia := some (c ::ₘ s.elementos)

/-! ## net/http: status codes, response writer, request -/

def StatusOK : Nat := 200
def StatusCreated : Nat := 201
def StatusNoContent : Nat := 204
def StatusBadRequest : Nat := 400
def StatusNotFound : Nat := 404

/-- One write to the response body. -/
inductive Escrita where
  /-- The line `http.Error` prints: the message, followed by a newline. -/
  | erro (msg : String)
  /-- The output of `json.NewEncoder(w).Encode(cliente)` for a `Cliente`. -/
  | json (c : Cliente)
  /-- The output of `json.NewEncoder(w).Encode(listaClientes)` for a slice. -/
  | jsonLista (l : Fatia)
  deriving DecidableEq

/-- The state of an `http.ResponseWriter`: the header map, the status code once
the header has been written, and the writes to the body in order. -/
structure ResponseWriter where
  header : List (String × String)
  status : Option Nat
  body : List Escrita
  deriving DecidableEq

/-- The response writer the server hands to a handler: nothing set or written. -/
def ResponseWriter.novo : ResponseWriter := ⟨[], none, []⟩

/-- Method `w.Header().Del(k)`. -/
def ResponseWriter.headerDel (w : ResponseWriter) (k : String) : ResponseWriter :=
  { w with header := w.header.filter (fun kv => kv.1 ≠ k) }

/-- Method `w.Header().Set(k, v)`. -/
def ResponseWriter.headerSet (w : ResponseWriter) (k v : String) : ResponseWriter :=
  { w with header := w.header.filter (fun kv => kv.1 ≠ k) ++ [(k, v)] }

/-- Method `w.WriteHeader(code)`: fixes the status code; a second call is ignored. -/
def ResponseWriter.WriteHeader (w : ResponseWriter) (code : Nat) : ResponseWriter :=
  match w.status with
  | none => { w with status := some code }
  | some _ => w

/-- A write to the body; the first write sends the header with `StatusOK` when
`WriteHeader` has not been called. -/
def ResponseWriter.Write (w : ResponseWriter) (e : Escrita) : ResponseWriter :=
  let w := w.WriteHeader StatusOK
  { w with body := w.body ++ [e] }

/-- Function `http.Error(w, error, code)`. -/
def httpError (w : ResponseWriter) (error : String) (code : Nat) : ResponseWriter :=
  let w := w.headerDel "Content-Length"
  let w := w.headerSet "Content-Type" "text/plain; charset=utf-8"
  let w := w.headerSet "X-Content-Type-Options" "nosniff"
  let w := w.WriteHeader code
  w.Write (.erro error)

/-- The part of an `*http.Request` the handlers read: the body and the route
variables `mux.Vars(r)`. -/
structure Request where
  Body : String
  Vars : List (String × String)

/-- Indexing the map `mux.Vars(r)`: a missing key gives the zero value `""`. -/
def muxVar (r : Request) (key : String) : String :=
  (r.Vars.lookup key).getD ""

/-! ## The handlers -/

/-- Cria um novo cliente. -/
def criarCliente (decode : String → Except String Cliente) (mapa : Mapa)
    (w : ResponseWriter) (r : Request) : Mapa × ResponseWriter :=
  match decode r.Body with
  | .error err => (mapa, httpError w err StatusBadRequest)
  | .ok cliente =>
    let mapa := mapa.insert cliente.ID cliente
    let w := w.WriteHeader StatusCreated
    (mapa, w.Write (.json cliente))

instance append_leftCommutative :
    LeftCommutative (fun (e : (_ : String) × Cliente) (lista : Fatia) => append lista e.2) :=
  ⟨fun a b l => by simp [append, Fatia.elementos, Multiset.cons_swap]⟩

/-- Obtém a lista de clientes. -/
def obterClientes (mapa : Mapa) (w : ResponseWriter) (_r : Request) : Mapa × ResponseWriter :=
  let listaClientes : Fatia :=
    Multiset.foldr (fun e lista => append lista e.2) none mapa.entries
  let w := w.headerSet "Content-Type" "application/json"
  (mapa, w.Write (.jsonLista listaClientes))

/-- Obtém um cliente por ID. -/
def obterCliente (mapa : Mapa) (w : ResponseWriter) (r : Request) : Mapa × ResponseWriter :=
  let id := muxVar r "id"
  match mapa.lookup id with
  | none => (mapa, httpError w "Cliente não encontrado" StatusNotFound)
  | some cliente =>
    let w := w.headerSet "Content-Type" "application/json"
    (mapa, w.Write (.json cliente))

/-- Atualiza os dados de um cliente. -/
def atualizarCliente (decode : String → Except String Cliente) (mapa : Mapa)
    (w : ResponseWriter) (r : Request) : Mapa × ResponseWriter :=
  let id := muxVar r "id"
  match decode r.Body with
  | .error err => (mapa, httpError w err StatusBadRequest)
  | .ok clienteAtualizado =>
    match mapa.lookup id with
    | none => (mapa, httpError w "Cliente não encontrado" StatusNotFound)
    | some cliente =>
      let cliente := { cliente with Nome := clienteAtualizado.Nome }
      let cliente := { cliente with Email := clienteAtualizado.Email }
      let mapa := mapa.insert id cliente
      let w := w.headerSet "Content-Type" "application/json"
      (mapa, w.Write (.json cliente))

/-- Deleta um cliente por ID. -/
def deletarCliente (mapa : Mapa) (w : ResponseWriter) (r : Request) : Mapa × ResponseWriter :=
  let id := muxVar r "id"
  let existe := (mapa.lookup id).isSome
  let mapa := if existe then mapa.erase id else mapa
  if !existe then
    (mapa, httpError w "Cliente não encontrado" StatusNotFound)
  else
    (mapa, w.WriteHeader StatusNoContent)

/-! ## Sequences of calls, reachable states, the key invariant -/

/-- The five routes registered in `main`. -/
inductive Rota where
  /-- Route `POST /clientes`. -/
  | criar
  /-- Route `GET /clientes`. -/
  | listar
  /-- Route `GET /clientes/{id}`. -/
  | obter
  /-- Route `PUT /clientes/{id}`. -/
  | atualizar
  /-- Route `DELETE /clientes/{id}`. -/
  | deletar
  deriving DecidableEq

/-- One served request: the router of `main` calls the handler of the route with
a response writer on which nothing has been written. -/
def servir (decode : String → Except String Cliente) (mapa : Mapa) (rota : Rota)
    (r : Request) : Mapa × ResponseWriter :=
  match rota with
  | .criar => criarCliente decode mapa .novo r
  | .listar => obterClientes mapa .novo r
  | .obter => obterCliente mapa .novo r
  | .atualizar => atualizarCliente decode mapa .novo r
  | .deletar => deletarCliente mapa .novo r

/-- The map after serving a sequence of requests one after the other. -/
def servirTodos (decode : String → Except String Cliente) (mapa : Mapa) :
    List (Rota × Request) → Mapa
  | [] => mapa
  | (rota, r) :: resto => servirTodos decode (servir decode mapa rota r).1 resto

/-- The states of the map the running server can be in: the initial map, and
every map one served request away from such a state. -/
inductive Alcancavel (decode : String → Except String Cliente) : Mapa → Prop where
  | inicial : Alcancavel decode clientes
  | passo {mapa : Mapa} (rota : Rota) (r : Request) :
      Alcancavel decode mapa → Alcancavel decode (servir decode mapa rota r).1

/-- Every record is stored under its own `ID`. -/
def Coerente (mapa : Mapa) : Prop :=
  ∀ (k : String) (c : Cliente), mapa.lookup k = some c → c.ID = k

/-- The record `c`, stored under the key `k`, after the update requests `us` have
been served in order: a request that decodes and whose route id is `k` replaces
`Nome` and `Email`, every other request leaves the record as it is. -/
def ultimaEscrita (decode : String → Except String Cliente) (us : List Request)
    (k : String) (c : Cliente) : Cliente :=
  us.foldl (fun c u =>
    match decode u.Body with
    | .error _ => c
    | .ok q => if muxVar u "id" = k then { c with Nome := q.Nome, Email := q.Email } else c) c

/-- A finite excerpt of a JSON decoder for `Cliente`, used to evaluate the
handlers on concrete requests: three well-formed bodies and their decoded
values; every other body is answered with the error of an empty input. -/
def decodeExemplo : String → Except String Cliente
  | "\x7b\"id\":\"1\",\"nome\":\"Ana\",\"email\":\"ana@example.com\"\x7d" =>
    .ok ⟨"1", "Ana", "ana@example.com"⟩
  | "\x7b\"id\":\"1\",\"nome\":\"Ana Lima\",\"email\":\"lima@example.com\"\x7d" =>
    .ok ⟨"1", "Ana Lima", "lima@example.com"⟩
  | "\x7b\"id\":\"2\",\"nome\":\"Bia\",\"email\":\"bia@example.com\"\x7d" =>
    .ok ⟨"2", "Bia", "bia@example.com"⟩
  | _ => .error "EOF"

/-- Body decoding to `⟨"1", "Ana", "ana@example.com"⟩`. -/
def corpoAna : String :=
  "\x7b\"id\":\"1\",\"nome\":\"Ana\",\"email\":\"ana@example.com\"\x7d"

/-- Body decoding to `⟨"1", "Ana Lima", "lima@example.com"⟩`. -/
def corpoAnaLima : String :=
  "\x7b\"id\":\"1\",\"nome\":\"Ana Lima\",\"email\":\"lima@example.com\"\x7d"

/-- Body decoding to `⟨"2", "Bia", "bia@example.com"⟩`. -/
def corpoBia : String :=
  "\x7b\"id\":\"2\",\"nome\":\"Bia\",\"email\":\"bia@example.com\"\x7d"

/-! ## What the handlers compute, case by case -/

theorem httpError_novo (error : String) (code : Nat) :
    (httpError .novo error code).status = some code ∧
    (httpError .novo error code).body = [.erro error] := by
  simp [httpError, ResponseWriter.Write, ResponseWriter.WriteHeader, ResponseWriter.headerSet,
    ResponseWriter.headerDel, ResponseWriter.novo]

theorem write_novo (k v : String) (e : Escrita) :
    ((ResponseWriter.novo.headerSet k v).Write e).status = some StatusOK ∧
    ((ResponseWriter.novo.headerSet k v).Write e).body = [e] := by
  simp [ResponseWriter.Write, ResponseWriter.WriteHeader, ResponseWriter.headerSet,
    ResponseWriter.novo]

theorem writeHeader_write_novo (code : Nat) (e : Escrita) :
    ((ResponseWriter.novo.WriteHeader code).Write e).status = some code ∧
    ((ResponseWriter.novo.WriteHeader code).Write e).body = [e] := by
  simp [ResponseWriter.Write, ResponseWriter.WriteHeader, ResponseWriter.novo]

theorem criarCliente_ok {decode : String → Except String Cliente} {mapa : Mapa}
    {w : ResponseWriter} {r : Request} {P : Cliente} (h : decode r.Body = .ok P) :
    criarCliente decode mapa w r =
      (mapa.insert P.ID P, (w.WriteHeader StatusCreated).Write (.json P)) := by
  unfold criarCliente
  rw [h]

theorem criarCliente_error {decode : String → Except String Cliente} {mapa : Mapa}
    {w : ResponseWriter} {r : Request} {err : String} (h : decode r.Body = .error err) :
    criarCliente decode mapa w r = (mapa, httpError w err StatusBadRequest) := by
  unfold criarCliente
  rw [h]

theorem obterCliente_some {mapa : Mapa} {w : ResponseWriter} {r : Request} {c : Cliente}
    (h : mapa.lookup (muxVar r "id") = some c) :
    obterCliente mapa w r =
      (mapa, (w.headerSet "Content-Type" "application/json").Write (.json c)) := by
  unfold obterCliente
  simp only []
  rw [h]

theorem obterCliente_none {mapa : Mapa} {w : ResponseWriter} {r : Request}
    (h : mapa.lookup (muxVar r "id") = none) :
    obterCliente mapa w r = (mapa, httpError w "Cliente não encontrado" StatusNotFound) := by
  unfold obterCliente
  simp only []
  rw [h]

theorem atualizarCliente_error {decode : String → Except String Cliente} {mapa : Mapa}
    {w : ResponseWriter} {r : Request} {err : String} (h : decode r.Body = .error err) :
    atualizarCliente decode mapa w r = (mapa, httpError w err StatusBadRequest) := by
  unfold atualizarCliente
  simp only []
  rw [h]

theorem atualizarCliente_none {decode : String → Except String Cliente} {mapa : Mapa}
    {w : ResponseWriter} {r : Request} {P : Cliente} (h : decode r.Body = .ok P)
    (hk : mapa.lookup (muxVar r "id") = none) :
    atualizarCliente decode mapa w r =
      (mapa, httpError w "Cliente não encontrado" StatusNotFound) := by
  unfold atualizarCliente
  simp only []
  rw [h]
  simp only []
  rw [hk]

theorem atualizarCliente_some {decode : String → Except String Cliente} {mapa : Mapa}
    {w : ResponseWriter} {r : Request} {P c : Cliente} (h : decode r.Body = .ok P)
    (hk : mapa.lookup (muxVar r "id") = some c) :
    atualizarCliente decode mapa w r =
      (mapa.insert (muxVar r "id") ⟨c.ID, P.Nome, P.Email⟩,
        (w.headerSet "Content-Type" "application/json").Write
          (.json ⟨c.ID, P.Nome, P.Email⟩)) := by
  unfold atualizarCliente
  simp only []
  rw [h]
  simp only []
  rw [hk]

theorem deletarCliente_some {mapa : Mapa} {w : ResponseWriter} {r : Request} {c : Cliente}
    (h : mapa.lookup (muxVar r "id") = some c) :
    deletarCliente mapa w r = (mapa.erase (muxVar r "id"), w.WriteHeader StatusNoContent) := by
  unfold deletarCliente
  simp only []
  rw [h]
  simp

theorem deletarCliente_none {mapa : Mapa} {w : ResponseWriter} {r : Request}
    (h : mapa.lookup (muxVar r "id") = none) :
    deletarCliente mapa w r = (mapa, httpError w "Cliente não encontrado" StatusNotFound) := by
  unfold deletarCliente
  simp only []
  rw [h]
  simp

/-! ## Create, Get, Update, Delete on one key -/

/-- C1: for every map `S` and every body decoding to `P`, `criarCliente` followed
by `obterCliente` with route id `P.ID` answers 200 with exactly the record `P`;
and after two creates with the same id, `obterCliente` answers with the second
payload, so not with the first when the two differ. -/
theorem criar_depois_obter (decode : String → Except String Cliente) (S : Mapa) :
    (∀ (rc rg : Request) (P : Cliente), decode rc.Body = .ok P → muxVar rg "id" = P.ID →
      (obterCliente (criarCliente decode S .novo rc).1 .novo rg).2.status = some StatusOK ∧
      (obterCliente (criarCliente decode S .novo rc).1 .novo rg).2.body = [.json P]) ∧
    (∀ (r1 r2 rg : Request) (P1 P2 : Cliente), decode r1.Body = .ok P1 →
      decode r2.Body = .ok P2 → P1.ID = P2.ID → muxVar rg "id" = P2.ID →
      (obterCliente (criarCliente decode (criarCliente decode S .novo r1).1 .novo r2).1
        .novo rg).2.status = some StatusOK ∧
      (obterCliente (criarCliente decode (criarCliente decode S .novo r1).1 .novo r2).1
        .novo rg).2.body = [.json P2] ∧
      (P1 ≠ P2 →
        (obterCliente (criarCliente decode (criarCliente decode S .novo r1).1 .novo r2).1
          .novo rg).2.body ≠ [.json P1])) := by
  have key : ∀ (T : Mapa) (rc rg : Request) (P : Cliente), decode rc.Body = .ok P →
      muxVar rg "id" = P.ID →
      obterCliente (criarCliente decode T .novo rc).1 .novo rg =
        ((criarCliente decode T .novo rc).1,
          (ResponseWriter.novo.headerSet "Content-Type" "application/json").Write (.json P)) := by
    intro T rc rg P hP hid
    apply obterCliente_some
    rw [criarCliente_ok hP, hid]
    exact Finmap.lookup_insert T
  refine ⟨?_, ?_⟩
  · intro rc rg P hP hid
    rw [key S rc rg P hP hid]
    exact write_novo _ _ _
  · intro r1 r2 rg P1 P2 _ h2 _ hid
    rw [key _ r2 rg P2 h2 hid]
    refine ⟨(write_novo _ _ _).1, (write_novo _ _ _).2, ?_⟩
    intro hne
    rw [(write_novo _ _ _).2]
    intro hEq
    apply hne
    simpa using hEq.symm

/-- C1 at a concrete input: create Ana under id 1, overwrite with Ana Lima. -/
theorem criar_depois_obter_witness :
    (obterCliente (criarCliente decodeExemplo clientes .novo ⟨corpoAna, []⟩).1 .novo
      ⟨"", [("id", "1")]⟩).2.body = [.json ⟨"1", "Ana", "ana@example.com"⟩] ∧
    (obterCliente (criarCliente decodeExemplo
        (criarCliente decodeExemplo clientes .novo ⟨corpoAna, []⟩).1 .novo
        ⟨corpoAnaLima, []⟩).1 .novo ⟨"", [("id", "1")]⟩).2.body
      = [.json ⟨"1", "Ana Lima", "lima@example.com"⟩] :=
  ⟨((criar_depois_obter decodeExemplo clientes).1 ⟨corpoAna, []⟩ ⟨"", [("id", "1")]⟩
      ⟨"1", "Ana", "ana@example.com"⟩ rfl (by decide)).2,
   ((criar_depois_obter decodeExemplo clientes).2 ⟨corpoAna, []⟩ ⟨corpoAnaLima, []⟩
      ⟨"", [("id", "1")]⟩ ⟨"1", "Ana", "ana@example.com"⟩
      ⟨"1", "Ana Lima", "lima@example.com"⟩ rfl rfl (by decide)
      (by decide)).2.1⟩

/-- C2: when the route id is a key of `S` holding `old`, and the body decodes to
`P` (whatever `P.ID` is), `atualizarCliente` answers 200 with the record
`⟨old.ID, P.Nome, P.Email⟩`, and a following `obterCliente` with the same route
id answers 200 with that same record. -/
theorem atualizar_existente (decode : String → Except String Cliente) (S : Mapa)
    (r rg : Request) (P old : Cliente) (hP : decode r.Body = .ok P)
    (hold : S.lookup (muxVar r "id") = some old) (hid : muxVar rg "id" = muxVar r "id") :
    (atualizarCliente decode S .novo r).2.status = some StatusOK ∧
    (atualizarCliente decode S .novo r).2.body = [.json ⟨old.ID, P.Nome, P.Email⟩] ∧
    (obterCliente (atualizarCliente decode S .novo r).1 .novo rg).2.status = some StatusOK ∧
    (obterCliente (atualizarCliente decode S .novo r).1 .novo rg).2.body =
      [.json ⟨old.ID, P.Nome, P.Email⟩] := by
  have hget : obterCliente (atualizarCliente decode S .novo r).1 .novo rg =
      ((atualizarCliente decode S .novo r).1,
        (ResponseWriter.novo.headerSet "Content-Type" "application/json").Write
          (.json ⟨old.ID, P.Nome, P.Email⟩)) := by
    apply obterCliente_some
    rw [atualizarCliente_some hP hold, hid]
    exact Finmap.lookup_insert S
  rw [hget, atualizarCliente_some hP hold]
  exact ⟨(write_novo _ _ _).1, (write_novo _ _ _).2, (write_novo _ _ _).1, (write_novo _ _ _).2⟩

/-- C2 at a concrete input: Ana is stored under id 1 and the update sent to
`/clientes/1` carries Bia's payload, whose own id is 2. -/
theorem atualizar_existente_witness :
    decodeExemplo corpoBia = .ok ⟨"2", "Bia", "bia@example.com"⟩ ∧
    (criarCliente decodeExemplo clientes .novo ⟨corpoAna, []⟩).1.lookup "1" =
      some ⟨"1", "Ana", "ana@example.com"⟩ ∧
    (obterCliente (atualizarCliente decodeExemplo
        (criarCliente decodeExemplo clientes .novo ⟨corpoAna, []⟩).1 .novo
        ⟨corpoBia, [("id", "1")]⟩).1 .novo ⟨"", [("id", "1")]⟩).2.body =
      [.json ⟨"1", "Bia", "bia@example.com"⟩] :=
  ⟨rfl, by decide,
   (atualizar_existente decodeExemplo
      (criarCliente decodeExemplo clientes .novo ⟨corpoAna, []⟩).1
      ⟨corpoBia, [("id", "1")]⟩ ⟨"", [("id", "1")]⟩ ⟨"2", "Bia", "bia@example.com"⟩
      ⟨"1", "Ana", "ana@example.com"⟩ rfl (by decide) (by decide)).2.2.2⟩

/-- C3: when the route id is not a key of `S` and the body decodes,
`atualizarCliente` answers 404 and the map after the call is `S`. -/
theorem atualizar_ausente (decode : String → Except String Cliente) (S : Mapa)
    (r : Request) (P : Cliente) (hP : decode r.Body = .ok P) (habs : muxVar r "id" ∉ S) :
    (atualizarCliente decode S .novo r).2.status = some StatusNotFound ∧
    (atualizarCliente decode S .novo r).1 = S := by
  rw [atualizarCliente_none hP (Finmap.lookup_eq_none.2 habs)]
  exact ⟨(httpError_novo _ _).1, rfl⟩

/-- C3 at a concrete input: an update of id 2 when only id 1 is stored. -/
theorem atualizar_ausente_witness :
    "2" ∉ (criarCliente decodeExemplo clientes .novo ⟨corpoAna, []⟩).1 ∧
    (atualizarCliente decodeExemplo (criarCliente decodeExemplo clientes .novo ⟨corpoAna, []⟩).1
      .novo ⟨corpoBia, [("id", "2")]⟩).2.status = some StatusNotFound ∧
    (atualizarCliente decodeExemplo (criarCliente decodeExemplo clientes .novo ⟨corpoAna, []⟩).1
      .novo ⟨corpoBia, [("id", "2")]⟩).1 =
      (criarCliente decodeExemplo clientes .novo ⟨corpoAna, []⟩).1 :=
  ⟨by decide,
   atualizar_ausente decodeExemplo (criarCliente decodeExemplo clientes .novo ⟨corpoAna, []⟩).1
     ⟨corpoBia, [("id", "2")]⟩ ⟨"2", "Bia", "bia@example.com"⟩ rfl (by decide)⟩

/-- C4: when the route id is a key of `S`, `deletarCliente` answers 204 and
writes nothing to the body, and a following `obterCliente` with the same route id
answers 404. -/
theorem deletar_depois_obter (S : Mapa) (r rg : Request) (hmem : muxVar r "id" ∈ S)
    (hid : muxVar rg "id" = muxVar r "id") :
    (deletarCliente S .novo r).2.status = some StatusNoContent ∧
    (deletarCliente S .novo r).2.body = [] ∧
    (obterCliente (deletarCliente S .novo r).1 .novo rg).2.status = some StatusNotFound := by
  obtain ⟨c, hc⟩ := Finmap.mem_iff.1 hmem
  have hget : obterCliente (deletarCliente S .novo r).1 .novo rg =
      ((deletarCliente S .novo r).1, httpError .novo "Cliente não encontrado" StatusNotFound) := by
    apply obterCliente_none
    rw [deletarCliente_some hc, hid]
    exact Finmap.lookup_erase _ S
  rw [hget, deletarCliente_some hc]
  exact ⟨rfl, rfl, (httpError_novo _ _).1⟩

/-- C4 at a concrete input: Ana is created under id 1, deleted, and looked up. -/
theorem deletar_depois_obter_witness :
    "1" ∈ (criarCliente decodeExemplo clientes .novo ⟨corpoAna, []⟩).1 ∧
    (obterCliente (deletarCliente (criarCliente decodeExemplo clientes .novo ⟨corpoAna, []⟩).1
      .novo ⟨"", [("id", "1")]⟩).1 .novo ⟨"", [("id", "1")]⟩).2.status = some StatusNotFound :=
  ⟨by decide,
   (deletar_depois_obter (criarCliente decodeExemplo clientes .novo ⟨corpoAna, []⟩).1
     ⟨"", [("id", "1")]⟩ ⟨"", [("id", "1")]⟩ (by decide) (by decide)).2.2⟩

/-- C5: when the route id is not a key of `S`, `deletarCliente` answers 404 and
the map after the call is `S`; and when it is a key, deleting it twice in a row
answers 204 and then 404, the second call leaving the map as the first left it. -/
theorem deletar_ausente (S : Mapa) (r : Request) :
    (muxVar r "id" ∉ S →
      (deletarCliente S .novo r).2.status = some StatusNotFound ∧
      (deletarCliente S .novo r).1 = S) ∧
    (muxVar r "id" ∈ S →
      (deletarCliente S .novo r).2.status = some StatusNoContent ∧
      (deletarCliente (deletarCliente S .novo r).1 .novo r).2.status = some StatusNotFound ∧
      (deletarCliente (deletarCliente S .novo r).1 .novo r).1 = (deletarCliente S .novo r).1) := by
  have habs : ∀ T : Mapa, muxVar r "id" ∉ T →
      (deletarCliente T .novo r).2.status = some StatusNotFound ∧
      (deletarCliente T .novo r).1 = T := by
    intro T hT
    rw [deletarCliente_none (Finmap.lookup_eq_none.2 hT)]
    exact ⟨(httpError_novo _ _).1, rfl⟩
  refine ⟨habs S, ?_⟩
  intro hmem
  obtain ⟨c, hc⟩ := Finmap.mem_iff.1 hmem
  have h2 := habs (deletarCliente S .novo r).1
    (by rw [deletarCliente_some hc]; exact Finmap.not_mem_erase_self)
  refine ⟨?_, h2.1, h2.2⟩
  rw [deletarCliente_some hc]
  rfl

/-- C5 at concrete inputs: a delete of id 2 when only id 1 is stored, and two
deletes of id 1. -/
theorem deletar_ausente_witness :
    "2" ∉ (criarCliente decodeExemplo clientes .novo ⟨corpoAna, []⟩).1 ∧
    (deletarCliente (criarCliente decodeExemplo clientes .novo ⟨corpoAna, []⟩).1 .novo
      ⟨"", [("id", "2")]⟩).1 = (criarCliente decodeExemplo clientes .novo ⟨corpoAna, []⟩).1 ∧
    (deletarCliente (deletarCliente (criarCliente decodeExemplo clientes .novo ⟨corpoAna, []⟩).1
      .novo ⟨"", [("id", "1")]⟩).1 .novo ⟨"", [("id", "1")]⟩).2.status = some StatusNotFound :=
  ⟨by decide,
   ((deletar_ausente (criarCliente decodeExemplo clientes .novo ⟨corpoAna, []⟩).1
     ⟨"", [("id", "2")]⟩).1 (by decide)).2,
   ((deletar_ausente (criarCliente decodeExemplo clientes .novo ⟨corpoAna, []⟩).1
     ⟨"", [("id", "1")]⟩).2 (by decide)).2.1⟩

/-! ## Decode errors, the answer of Create, the answer of Get -/

/-- C7: when the body fails to decode with message `err`, `criarCliente` answers
400 and so does `atualizarCliente` (whatever the route id, stored or not); the
only write to the body is the line of `http.Error` carrying `err`, and in both
cases the map after the call is `S`. -/
theorem corpo_malformado (decode : String → Except String Cliente) (S : Mapa)
    (r : Request) (err : String) (herr : decode r.Body = .error err) :
    ((criarCliente decode S .novo r).2.status = some StatusBadRequest ∧
      (criarCliente decode S .novo r).2.body = [.erro err] ∧
      (criarCliente decode S .novo r).1 = S) ∧
    ((atualizarCliente decode S .novo r).2.status = some StatusBadRequest ∧
      (atualizarCliente decode S .novo r).2.body = [.erro err] ∧
      (atualizarCliente decode S .novo r).1 = S) := by
  rw [criarCliente_error herr, atualizarCliente_error herr]
  exact ⟨⟨(httpError_novo _ _).1, (httpError_novo _ _).2, rfl⟩,
    ⟨(httpError_novo _ _).1, (httpError_novo _ _).2, rfl⟩⟩

/-- C7 at a concrete input: an empty body sent to `/clientes/1` while Ana is
stored under id 1. -/
theorem corpo_malformado_witness :
    decodeExemplo "" = .error "EOF" ∧
    (atualizarCliente decodeExemplo (criarCliente decodeExemplo clientes .novo ⟨corpoAna, []⟩).1
      .novo ⟨"", [("id", "1")]⟩).2.body = [.erro "EOF"] ∧
    (atualizarCliente decodeExemplo (criarCliente decodeExemplo clientes .novo ⟨corpoAna, []⟩).1
      .novo ⟨"", [("id", "1")]⟩).1 =
      (criarCliente decodeExemplo clientes .novo ⟨corpoAna, []⟩).1 :=
  ⟨rfl,
   (corpo_malformado decodeExemplo (criarCliente decodeExemplo clientes .novo ⟨corpoAna, []⟩).1
     ⟨"", [("id", "1")]⟩ "EOF" rfl).2.2.1,
   (corpo_malformado decodeExemplo (criarCliente decodeExemplo clientes .novo ⟨corpoAna, []⟩).1
     ⟨"", [("id", "1")]⟩ "EOF" rfl).2.2.2⟩

/-- C9: for every map and every body decoding to `P`, with no condition on the
fields of `P`, `criarCliente` answers 201, the body is the encoding of `P`, and
`P` is what the map holds under the key `P.ID` afterwards; and a call of
`criarCliente` that does not answer 201 is one whose body failed to decode. -/
theorem criar_resposta (decode : String → Except String Cliente) (S : Mapa) (r : Request) :
    (∀ P : Cliente, decode r.Body = .ok P →
      (criarCliente decode S .novo r).2.status = some StatusCreated ∧
      (criarCliente decode S .novo r).2.body = [.json P] ∧
      (criarCliente decode S .novo r).1.lookup P.ID = some P) ∧
    ((criarCliente decode S .novo r).2.status ≠ some StatusCreated →
      ∃ err, decode r.Body = .error err) := by
  have hok : ∀ P : Cliente, decode r.Body = .ok P →
      (criarCliente decode S .novo r).2.status = some StatusCreated ∧
      (criarCliente decode S .novo r).2.body = [.json P] ∧
      (criarCliente decode S .novo r).1.lookup P.ID = some P := by
    intro P hP
    rw [criarCliente_ok hP]
    exact ⟨(writeHeader_write_novo _ _).1, (writeHeader_write_novo _ _).2,
      Finmap.lookup_insert S⟩
  refine ⟨hok, ?_⟩
  intro hne
  cases hd : decode r.Body with
  | error err => exact ⟨err, rfl⟩
  | ok P => exact absurd (hok P hd).1 hne

/-- C9 at a concrete input: a payload whose id is the empty string is stored
under the empty key. -/
theorem criar_resposta_witness :
    (criarCliente (fun _ => .ok ⟨"", "Ana", ""⟩) clientes .novo ⟨"", []⟩).2.status =
      some StatusCreated ∧
    (criarCliente (fun _ => .ok ⟨"", "Ana", ""⟩) clientes .novo ⟨"", []⟩).2.body =
      [.json ⟨"", "Ana", ""⟩] ∧
    (criarCliente (fun _ => .ok ⟨"", "Ana", ""⟩) clientes .novo ⟨"", []⟩).1.lookup "" =
      some ⟨"", "Ana", ""⟩ :=
  (criar_resposta (fun _ => .ok ⟨"", "Ana", ""⟩) clientes ⟨"", []⟩).1 ⟨"", "Ana", ""⟩ rfl

/-- C10, as stated, fails: on the empty map `obterCliente` answers 404, and the
text it sends is not "Customer not found". -/
theorem obter_texto_contraexemplo :
    (obterCliente clientes .novo ⟨"", [("id", "1")]⟩).2.status = some StatusNotFound ∧
    (obterCliente clientes .novo ⟨"", [("id", "1")]⟩).2.body ≠ [.erro "Customer not found"] := by
  decide

/-- C10, amended: `obterCliente` answers 404 exactly when the route id is not a
key of `S`, and then the text it sends is "Cliente não encontrado"; otherwise it
answers 200 with the record stored under the id. -/
theorem obter_resposta (S : Mapa) (r : Request) :
    ((obterCliente S .novo r).2.status = some StatusNotFound ↔ muxVar r "id" ∉ S) ∧
    (muxVar r "id" ∉ S →
      (obterCliente S .novo r).2.body = [.erro "Cliente não encontrado"]) ∧
    (∀ c : Cliente, S.lookup (muxVar r "id") = some c →
      (obterCliente S .novo r).2.status = some StatusOK ∧
      (obterCliente S .novo r).2.body = [.json c]) := by
  have hsome : ∀ c : Cliente, S.lookup (muxVar r "id") = some c →
      (obterCliente S .novo r).2.status = some StatusOK ∧
      (obterCliente S .novo r).2.body = [.json c] := by
    intro c hc
    rw [obterCliente_some hc]
    exact write_novo _ _ _
  have hnone : muxVar r "id" ∉ S →
      (obterCliente S .novo r).2.status = some StatusNotFound ∧
      (obterCliente S .novo r).2.body = [.erro "Cliente não encontrado"] := by
    intro habs
    rw [obterCliente_none (Finmap.lookup_eq_none.2 habs)]
    exact httpError_novo _ _
  refine ⟨⟨?_, fun habs => (hnone habs).1⟩, fun habs => (hnone habs).2, hsome⟩
  intro h404 hmem
  obtain ⟨c, hc⟩ := Finmap.mem_iff.1 hmem
  rw [(hsome c hc).1] at h404
  revert h404
  decide

/-- C10, amended, at concrete inputs: id 2 is looked up while only id 1 is
stored, and then id 1. -/
theorem obter_resposta_witness :
    "2" ∉ (criarCliente decodeExemplo clientes .novo ⟨corpoAna, []⟩).1 ∧
    (obterCliente (criarCliente decodeExemplo clientes .novo ⟨corpoAna, []⟩).1 .novo
      ⟨"", [("id", "2")]⟩).2.body = [.erro "Cliente não encontrado"] ∧
    (obterCliente (criarCliente decodeExemplo clientes .novo ⟨corpoAna, []⟩).1 .novo
      ⟨"", [("id", "1")]⟩).2.body = [.json ⟨"1", "Ana", "ana@example.com"⟩] :=
  ⟨by decide,
   (obter_resposta (criarCliente decodeExemplo clientes .novo ⟨corpoAna, []⟩).1
     ⟨"", [("id", "2")]⟩).2.1 (by decide),
   ((obter_resposta (criarCliente decodeExemplo clientes .novo ⟨corpoAna, []⟩).1
     ⟨"", [("id", "1")]⟩).2.2 ⟨"1", "Ana", "ana@example.com"⟩ (by decide)).2⟩

/-! ## The key invariant -/

theorem coerente_insert {S : Mapa} {k : String} {c : Cliente} (hS : Coerente S)
    (hk : c.ID = k) : Coerente (S.insert k c) := by
  intro k1 c1 h1
  by_cases hkk : k1 = k
  · subst hkk
    rw [Finmap.lookup_insert] at h1
    cases h1
    exact hk
  · rw [Finmap.lookup_insert_of_ne S hkk] at h1
    exact hS k1 c1 h1

theorem coerente_erase {S : Mapa} {k : String} (hS : Coerente S) : Coerente (S.erase k) := by
  intro k1 c1 h1
  by_cases hkk : k1 = k
  · subst hkk
    rw [Finmap.lookup_erase] at h1
    cases h1
  · rw [Finmap.lookup_erase_ne hkk] at h1
    exact hS k1 c1 h1

theorem coerente_criarCliente (decode : String → Except String Cliente) {S : Mapa}
    (w : ResponseWriter) (r : Request) (hS : Coerente S) :
    Coerente (criarCliente decode S w r).1 := by
  cases hd : decode r.Body with
  | error err => rw [criarCliente_error hd]; exact hS
  | ok P => rw [criarCliente_ok hd]; exact coerente_insert hS rfl

theorem coerente_atualizarCliente (decode : String → Except String Cliente) {S : Mapa}
    (w : ResponseWriter) (r : Request) (hS : Coerente S) :
    Coerente (atualizarCliente decode S w r).1 := by
  cases hd : decode r.Body with
  | error err => rw [atualizarCliente_error hd]; exact hS
  | ok P =>
    cases hk : S.lookup (muxVar r "id") with
    | none => rw [atualizarCliente_none hd hk]; exact hS
    | some c => rw [atualizarCliente_some hd hk]; exact coerente_insert hS (hS _ c hk)

theorem coerente_deletarCliente {S : Mapa} (w : ResponseWriter) (r : Request)
    (hS : Coerente S) : Coerente (deletarCliente S w r).1 := by
  cases hk : S.lookup (muxVar r "id") with
  | none => rw [deletarCliente_none hk]; exact hS
  | some c => rw [deletarCliente_some hk]; exact coerente_erase hS

theorem coerente_obterCliente {S : Mapa} (w : ResponseWriter) (r : Request)
    (hS : Coerente S) : Coerente (obterCliente S w r).1 := by
  cases hk : S.lookup (muxVar r "id") with
  | none => rw [obterCliente_none hk]; exact hS
  | some c => rw [obterCliente_some hk]; exact hS

theorem coerente_servir (decode : String → Except String Cliente) {S : Mapa}
    (rota : Rota) (r : Request) (hS : Coerente S) : Coerente (servir decode S rota r).1 := by
  cases rota with
  | criar => exact coerente_criarCliente decode _ r hS
  | listar => exact hS
  | obter => exact coerente_obterCliente _ r hS
  | atualizar => exact coerente_atualizarCliente decode _ r hS
  | deletar => exact coerente_deletarCliente _ r hS

/-- C8: every record is stored under its own id in the initial empty map; each
of the five handlers, on every response writer and request, takes a map with
this property to a map with this property; hence it holds in every state the
server can reach. -/
theorem chave_igual_id (decode : String → Except String Cliente) :
    Coerente clientes ∧
    (∀ (S : Mapa) (w : ResponseWriter) (r : Request), Coerente S →
      Coerente (criarCliente decode S w r).1 ∧
      Coerente (obterClientes S w r).1 ∧
      Coerente (obterCliente S w r).1 ∧
      Coerente (atualizarCliente decode S w r).1 ∧
      Coerente (deletarCliente S w r).1) ∧
    (∀ S : Mapa, Alcancavel decode S → Coerente S) := by
  have h0 : Coerente clientes := by
    intro k c h
    rw [clientes, Finmap.lookup_empty] at h
    cases h
  refine ⟨h0, ?_, ?_⟩
  · intro S w r hS
    exact ⟨coerente_criarCliente decode w r hS, hS, coerente_obterCliente w r hS,
      coerente_atualizarCliente decode w r hS, coerente_deletarCliente w r hS⟩
  · intro S hreach
    induction hreach with
    | inicial => exact h0
    | passo rota r _ ih => exact coerente_servir decode rota r ih

/-- C8 at a concrete input: the map reached by creating Ana under id 1 and
then updating `/clientes/1` with Bia's payload (whose own id is 2). -/
theorem chave_igual_id_witness :
    Coerente (servir decodeExemplo (servir decodeExemplo clientes .criar ⟨corpoAna, []⟩).1
      .atualizar ⟨corpoBia, [("id", "1")]⟩).1 :=
  (chave_igual_id decodeExemplo).2.2 _
    (.passo .atualizar ⟨corpoBia, [("id", "1")]⟩ (.passo .criar ⟨corpoAna, []⟩ .inicial))

/-! ## List after a sequence of creates and updates -/

theorem listaClientes_elementos (s : Multiset ((_ : String) × Cliente)) :
    (Multiset.foldr (fun e (lista : Fatia) => append lista e.2) none s).elementos
      = s.map (fun e => e.2) := by
  induction s using Multiset.induction_on with
  | empty => rfl
  | cons a s ih =>
    rw [Multiset.foldr_cons, Multiset.map_cons, ← ih]
    rfl

theorem listaClientes_eq_none (s : Multiset ((_ : String) × Cliente)) :
    Multiset.foldr (fun e (lista : Fatia) => append lista e.2) none s = none ↔ s = 0 := by
  induction s using Multiset.induction_on with
  | empty => simp
  | cons a s _ =>
    rw [Multiset.foldr_cons]
    simp [append]

theorem servirTodos_append (decode : String → Except String Cliente) (S : Mapa)
    (l1 l2 : List (Rota × Request)) :
    servirTodos decode S (l1 ++ l2) = servirTodos decode (servirTodos decode S l1) l2 := by
  induction l1 generalizing S with
  | nil => rfl
  | cons a l1 ih =>
    obtain ⟨rota, r⟩ := a
    simp only [List.cons_append, servirTodos]
    exact ih _

theorem servirTodos_criar (decode : String → Except String Cliente) (S : Mapa)
    (rs : List Request) (ps : List Cliente)
    (hdec : List.Forall₂ (fun r p => decode r.Body = .ok p) rs ps) :
    servirTodos decode S (rs.map (Prod.mk Rota.criar)) =
      ps.foldl (fun m p => m.insert p.ID p) S := by
  induction hdec generalizing S with
  | nil => rfl
  | cons h _ ih =>
    simp only [List.map_cons, servirTodos, servir, List.foldl_cons]
    rw [criarCliente_ok h]
    exact ih _

theorem lookup_atualizarCliente (decode : String → Except String Cliente) (S : Mapa)
    (w : ResponseWriter) (u : Request) (k : String) :
    (atualizarCliente decode S w u).1.lookup k =
      (S.lookup k).map (ultimaEscrita decode [u] k) := by
  have hstep : ∀ c : Cliente, ultimaEscrita decode [u] k c =
      (match decode u.Body with
        | .error _ => c
        | .ok q => if muxVar u "id" = k then { c with Nome := q.Nome, Email := q.Email }
            else c) := fun _ => rfl
  cases hd : decode u.Body with
  | error err =>
    rw [atualizarCliente_error hd]
    have : ultimaEscrita decode [u] k = id := by
      funext c
      rw [hstep, hd]
      rfl
    rw [this, Option.map_id]
    rfl
  | ok q =>
    by_cases hk : muxVar u "id" = k
    · subst hk
      cases hl : S.lookup (muxVar u "id") with
      | none =>
        rw [atualizarCliente_none hd hl, hl]
        rfl
      | some c =>
        rw [atualizarCliente_some hd hl, Finmap.lookup_insert, Option.map_some', hstep, hd]
        simp
    · have hid : ultimaEscrita decode [u] k = id := by
        funext c
        rw [hstep, hd]
        simp [hk]
      rw [hid, Option.map_id]
      cases hl : S.lookup (muxVar u "id") with
      | none => rw [atualizarCliente_none hd hl]; rfl
      | some c =>
        rw [atualizarCliente_some hd hl]
        exact Finmap.lookup_insert_of_ne S (Ne.symm hk)

theorem ultimaEscrita_cons (decode : String → Except String Cliente) (u : Request)
    (us : List Request) (k : String) (c : Cliente) :
    ultimaEscrita decode (u :: us) k c =
      ultimaEscrita decode us k (ultimaEscrita decode [u] k c) := rfl

theorem ultimaEscrita_ID (decode : String → Except String Cliente) (us : List Request)
    (k : String) (c : Cliente) : (ultimaEscrita decode us k c).ID = c.ID := by
  induction us generalizing c with
  | nil => rfl
  | cons u us ih =>
    rw [ultimaEscrita_cons, ih]
    show (ultimaEscrita decode [u] k c).ID = c.ID
    simp only [ultimaEscrita, List.foldl_cons, List.foldl_nil]
    cases decode u.Body with
    | error err => rfl
    | ok q =>
      by_cases hk : muxVar u "id" = k
      · simp [hk]
      · simp [hk]

theorem lookup_servirTodos_atualizar (decode : String → Except String Cliente) (S : Mapa)
    (us : List Request) (k : String) :
    (servirTodos decode S (us.map (Prod.mk Rota.atualizar))).lookup k =
      (S.lookup k).map (ultimaEscrita decode us k) := by
  induction us generalizing S with
  | nil =>
    have : ultimaEscrita decode [] k = id := rfl
    rw [this, Option.map_id]
    rfl
  | cons u us ih =>
    simp only [List.map_cons, servirTodos, servir]
    rw [ih, lookup_atualizarCliente, Option.map_map]
    rfl

theorem lookup_foldl_insert_of_not_mem (ps : List Cliente) (S : Mapa) (k : String)
    (hk : k ∉ ps.map Cliente.ID) :
    (ps.foldl (fun m p => m.insert p.ID p) S).lookup k = S.lookup k := by
  induction ps generalizing S with
  | nil => rfl
  | cons p ps ih =>
    simp only [List.map_cons, List.mem_cons, not_or] at hk
    rw [List.foldl_cons, ih _ hk.2]
    exact Finmap.lookup_insert_of_ne S hk.1

theorem lookup_foldl_insert_of_mem (ps : List Cliente) (S : Mapa) (p : Cliente)
    (hnd : (ps.map Cliente.ID).Nodup) (hp : p ∈ ps) :
    (ps.foldl (fun m p => m.insert p.ID p) S).lookup p.ID = some p := by
  induction ps generalizing S with
  | nil => cases hp
  | cons q ps ih =>
    rw [List.map_cons, List.nodup_cons] at hnd
    rw [List.foldl_cons]
    rcases List.mem_cons.1 hp with rfl | hmem
    · rw [lookup_foldl_insert_of_not_mem ps _ _ hnd.1]
      exact Finmap.lookup_insert S
    · exact ih _ hnd.2 hmem

theorem entries_foldl_insert (ps : List Cliente) (S : Mapa)
    (hnd : (ps.map Cliente.ID).Nodup) (hS : ∀ p ∈ ps, p.ID ∉ S) :
    (ps.foldl (fun m p => m.insert p.ID p) S).entries =
      S.entries + Multiset.ofList (ps.map (fun p => (⟨p.ID, p⟩ : (_ : String) × Cliente))) := by
  induction ps generalizing S with
  | nil => simp
  | cons q ps ih =>
    rw [List.map_cons, List.nodup_cons] at hnd
    have hq : q.ID ∉ S := hS q (List.mem_cons_self _ _)
    have hrest : ∀ p ∈ ps, p.ID ∉ S.insert q.ID q := by
      intro p hp hmem
      rcases Finmap.mem_insert.1 hmem with heq | hin
      · exact hnd.1 (heq ▸ List.mem_map_of_mem Cliente.ID hp)
      · exact hS p (List.mem_cons_of_mem _ hp) hin
    rw [List.foldl_cons, ih _ hnd.2 hrest, Finmap.insert_entries_of_neg hq, List.map_cons,
      ← Multiset.cons_coe, Multiset.cons_add, Multiset.add_cons]

theorem clientes_entries : clientes.entries = 0 := rfl

/-- C6: starting from the empty map, after creates whose bodies decode to the
records `ps` with pairwise distinct ids, followed by any update requests `us`,
`obterClientes` answers 200 with one encoded slice whose elements are, up to
order, the records of `ps` each in its last-written form; it has exactly as
many elements as there were creates, every created id occurs exactly once among
them, and the slice is nil only when nothing was created. -/
theorem listar_apos_criar (decode : String → Except String Cliente)
    (rs us : List Request) (ps : List Cliente) (rl : Request)
    (hdec : List.Forall₂ (fun r p => decode r.Body = .ok p) rs ps)
    (hnd : (ps.map Cliente.ID).Nodup) :
    (obterClientes (servirTodos decode clientes
      (rs.map (Prod.mk Rota.criar) ++ us.map (Prod.mk Rota.atualizar))) .novo rl).2.status
        = some StatusOK ∧
    ∃ lista : Fatia,
      (obterClientes (servirTodos decode clientes
        (rs.map (Prod.mk Rota.criar) ++ us.map (Prod.mk Rota.atualizar))) .novo rl).2.body
          = [.jsonLista lista] ∧
      lista.elementos = Multiset.ofList (ps.map (fun p => ultimaEscrita decode us p.ID p)) ∧
      Multiset.card lista.elementos = rs.length ∧
      lista.elementos.map Cliente.ID = Multiset.ofList (ps.map Cliente.ID) ∧
      (lista.elementos.map Cliente.ID).Nodup ∧
      (lista = none ↔ rs = []) := by
  have hids : (ps.map (fun p => ultimaEscrita decode us p.ID p)).map Cliente.ID
      = ps.map Cliente.ID := by
    rw [List.map_map]
    exact List.map_congr_left (fun p _ => ultimaEscrita_ID decode us p.ID p)
  have hnd2 : ((ps.map (fun p => ultimaEscrita decode us p.ID p)).map Cliente.ID).Nodup := by
    rw [hids]; exact hnd
  have hmapa : servirTodos decode clientes
      (rs.map (Prod.mk Rota.criar) ++ us.map (Prod.mk Rota.atualizar)) =
      (ps.map (fun p => ultimaEscrita decode us p.ID p)).foldl
        (fun m p => m.insert p.ID p) clientes := by
    apply Finmap.ext_lookup
    intro k
    rw [servirTodos_append, lookup_servirTodos_atualizar, servirTodos_criar decode _ rs ps hdec]
    by_cases hk : k ∈ ps.map Cliente.ID
    · obtain ⟨p, hp, rfl⟩ := List.mem_map.1 hk
      rw [lookup_foldl_insert_of_mem ps _ p hnd hp, Option.map_some',
        ← ultimaEscrita_ID decode us p.ID p]
      rw [lookup_foldl_insert_of_mem _ _ _ hnd2
        (List.mem_map_of_mem (fun p => ultimaEscrita decode us p.ID p) hp)]
      rw [ultimaEscrita_ID]
    · rw [lookup_foldl_insert_of_not_mem ps _ k hk,
        lookup_foldl_insert_of_not_mem _ _ k (by rw [hids]; exact hk)]
      rw [clientes, Finmap.lookup_empty]
      rfl
  have hent := entries_foldl_insert (ps.map (fun p => ultimaEscrita decode us p.ID p))
    clientes hnd2 (fun _ _ => Finmap.not_mem_empty)
  have hlen : rs.length = ps.length := hdec.length_eq
  have helem : (Multiset.foldr (fun e (lista : Fatia) => append lista e.2) none
      ((ps.map (fun p => ultimaEscrita decode us p.ID p)).foldl
        (fun m p => m.insert p.ID p) clientes).entries).elementos
      = Multiset.ofList (ps.map (fun p => ultimaEscrita decode us p.ID p)) := by
    rw [listaClientes_elementos, hent, clientes_entries]
    simp [Function.comp_def]
  rw [hmapa]
  refine ⟨(write_novo _ _ _).1, _, (write_novo _ _ _).2, helem, ?_, ?_, ?_, ?_⟩
  · rw [helem, hlen]
    simp
  · rw [helem, Multiset.map_coe, hids]
  · rw [helem, Multiset.map_coe, hids]
    exact hnd
  · rw [listaClientes_eq_none, hent, clientes_entries]
    cases hdec with
    | nil => simp
    | cons _ _ => simp

/-- C6 at a concrete input: Ana (id 1) and Bia (id 2) are created, then
`/clientes/1` is updated with Ana Lima's payload; the list holds Ana Lima and
Bia. -/
theorem listar_apos_criar_witness :
    List.Forall₂ (fun (r : Request) (p : Cliente) => decodeExemplo r.Body = .ok p)
      [⟨corpoAna, []⟩, ⟨corpoBia, []⟩]
      [⟨"1", "Ana", "ana@example.com"⟩, ⟨"2", "Bia", "bia@example.com"⟩] ∧
    ∃ lista : Fatia,
      (obterClientes (servirTodos decodeExemplo clientes
        ([(⟨corpoAna, []⟩ : Request), ⟨corpoBia, []⟩].map (Prod.mk Rota.criar) ++
          [(⟨corpoAnaLima, [("id", "1")]⟩ : Request)].map (Prod.mk Rota.atualizar)))
        .novo ⟨"", []⟩).2.body = [.jsonLista lista] ∧
      lista.elementos = Multiset.ofList
        [⟨"1", "Ana Lima", "lima@example.com"⟩, ⟨"2", "Bia", "bia@example.com"⟩] :=
  ⟨.cons rfl (.cons rfl .nil),
   (listar_apos_criar decodeExemplo [⟨corpoAna, []⟩, ⟨corpoBia, []⟩]
      [⟨corpoAnaLima, [("id", "1")]⟩]
      [⟨"1", "Ana", "ana@example.com"⟩, ⟨"2", "Bia", "bia@example.com"⟩] ⟨"", []⟩
      (.cons rfl (.cons rfl .nil)) (by decide)).2.imp
     (fun _ h => ⟨h.1, h.2.1⟩)⟩

/-! ## List on the empty map -/

theorem entries_eq_zero_iff (S : Mapa) : S.entries = 0 ↔ S = clientes :=
  ⟨fun h => Finmap.ext (h.trans clientes_entries.symm), fun h => h ▸ clientes_entries⟩

/-- C11, as stated, fails: on the empty map `obterClientes` answers 200, and the
slice it encodes is the nil slice, not an empty non-nil slice. -/
theorem listar_vazio_contraexemplo :
    (obterClientes clientes .novo ⟨"", []⟩).2.status = some StatusOK ∧
    (obterClientes clientes .novo ⟨"", []⟩).2.body = [.jsonLista none] ∧
    (obterClientes clientes .novo ⟨"", []⟩).2.body ≠ [.jsonLista (some 0)] := by
  decide

/-- C11, amended: for every map `obterClientes` answers 200 and its only write
is one encoded slice, holding the stored records up to order, so it never
answers with an error; the slice is the nil slice exactly when the map holds no
record, and then it has no elements. -/
theorem listar_vazio (S : Mapa) (r : Request) :
    (obterClientes S .novo r).2.status = some StatusOK ∧
    ∃ lista : Fatia,
      (obterClientes S .novo r).2.body = [.jsonLista lista] ∧
      lista.elementos = S.entries.map (fun e => e.2) ∧
      (lista = none ↔ S = clientes) ∧
      (S = clientes → lista.elementos = 0) := by
  refine ⟨(write_novo _ _ _).1, _, (write_novo _ _ _).2, listaClientes_elementos _, ?_, ?_⟩
  · rw [listaClientes_eq_none, entries_eq_zero_iff]
  · intro h
    rw [listaClientes_elementos, (entries_eq_zero_iff S).2 h]
    rfl

/-- C11, amended, at a concrete input: the empty map, where the encoded slice
is nil. -/
theorem listar_vazio_witness :
    (obterClientes clientes .novo ⟨"", []⟩).2.status = some StatusOK ∧
    ∃ lista : Fatia,
      (obterClientes clientes .novo ⟨"", []⟩).2.body = [.jsonLista lista] ∧ lista = none :=
  ⟨(listar_vazio clientes ⟨"", []⟩).1,
   (listar_vazio clientes ⟨"", []⟩).2.imp (fun _ h => ⟨h.1, h.2.2.1.2 rfl⟩)⟩

/-! ## Frame properties -/

/-- C13: a key `k'` other than the id a mutating handler works on is looked up
with the same result before and after the call: for `criarCliente` with a body
decoding to `P` and `k' ≠ P.ID`, and for `atualizarCliente` and `deletarCliente`
with route id other than `k'` (whatever the body and whether or not the route id
is stored). -/
theorem so_a_propria_chave (decode : String → Except String Cliente) (S : Mapa)
    (w : ResponseWriter) (r : Request) (k' : String) :
    (∀ P : Cliente, decode r.Body = .ok P → k' ≠ P.ID →
      (criarCliente decode S w r).1.lookup k' = S.lookup k') ∧
    (k' ≠ muxVar r "id" →
      (atualizarCliente decode S w r).1.lookup k' = S.lookup k' ∧
      (deletarCliente S w r).1.lookup k' = S.lookup k') := by
  refine ⟨?_, ?_⟩
  · intro P hP hne
    rw [criarCliente_ok hP]
    exact Finmap.lookup_insert_of_ne S hne
  · intro hne
    refine ⟨?_, ?_⟩
    · cases hd : decode r.Body with
      | error err => rw [atualizarCliente_error hd]
      | ok P =>
        cases hk : S.lookup (muxVar r "id") with
        | none => rw [atualizarCliente_none hd hk]
        | some c =>
          rw [atualizarCliente_some hd hk]
          exact Finmap.lookup_insert_of_ne S hne
    · cases hk : S.lookup (muxVar r "id") with
      | none => rw [deletarCliente_none hk]
      | some c =>
        rw [deletarCliente_some hk]
        exact Finmap.lookup_erase_ne hne

/-- C13 at concrete inputs: with Ana stored under id 1, creating Bia (id 2),
and updating or deleting `/clientes/2`, leave the lookup of id 1 as it was. -/
theorem so_a_propria_chave_witness :
    decodeExemplo corpoBia = .ok ⟨"2", "Bia", "bia@example.com"⟩ ∧
    (criarCliente decodeExemplo (criarCliente decodeExemplo clientes .novo ⟨corpoAna, []⟩).1
      .novo ⟨corpoBia, [("id", "2")]⟩).1.lookup "1" = some ⟨"1", "Ana", "ana@example.com"⟩ ∧
    (deletarCliente (criarCliente decodeExemplo clientes .novo ⟨corpoAna, []⟩).1
      .novo ⟨corpoBia, [("id", "2")]⟩).1.lookup "1" = some ⟨"1", "Ana", "ana@example.com"⟩ :=
  ⟨rfl,
   ((so_a_propria_chave decodeExemplo (criarCliente decodeExemplo clientes .novo ⟨corpoAna, []⟩).1
      .novo ⟨corpoBia, [("id", "2")]⟩ "1").1 ⟨"2", "Bia", "bia@example.com"⟩ rfl
      (by decide)).trans (by decide),
   ((so_a_propria_chave decodeExemplo (criarCliente decodeExemplo clientes .novo ⟨corpoAna, []⟩).1
      .novo ⟨corpoBia, [("id", "2")]⟩ "1").2 (by decide)).2.trans (by decide)⟩

/-- C14: `obterClientes` and `obterCliente` return the map they were given,
whether they answer 200 or 404; hence a second call on the resulting map gives
the same response (status, and records up to order) as the first. -/
theorem leitura_nao_altera (S : Mapa) (w : ResponseWriter) (r : Request) :
    (obterClientes S w r).1 = S ∧
    (obterCliente S w r).1 = S ∧
    (obterClientes (obterClientes S w r).1 w r).2 = (obterClientes S w r).2 ∧
    (obterCliente (obterCliente S w r).1 w r).2 = (obterCliente S w r).2 := by
  have hget : (obterCliente S w r).1 = S := by
    cases hk : S.lookup (muxVar r "id") with
    | none => rw [obterCliente_none hk]
    | some c => rw [obterCliente_some hk]
  have hlist : (obterClientes S w r).1 = S := rfl
  refine ⟨hlist, hget, ?_, ?_⟩
  · rw [hlist]
  · rw [hget]

/-! ## Creates on distinct ids commute -/

/-- C15: for bodies decoding to `P1` and `P2`, when `P1.ID ≠ P2.ID` the map
after create `P1` then create `P2` equals the map after create `P2` then create
`P1`; when `P1.ID = P2.ID` and `P1 ≠ P2` the two maps differ. -/
theorem criar_comuta (decode : String → Except String Cliente) (S : Mapa)
    (w1 w2 w3 w4 : ResponseWriter) (r1 r2 : Request) (P1 P2 : Cliente)
    (h1 : decode r1.Body = .ok P1) (h2 : decode r2.Body = .ok P2) :
    (P1.ID ≠ P2.ID →
      (criarCliente decode (criarCliente decode S w1 r1).1 w2 r2).1 =
        (criarCliente decode (criarCliente decode S w3 r2).1 w4 r1).1) ∧
    (P1.ID = P2.ID → P1 ≠ P2 →
      (criarCliente decode (criarCliente decode S w1 r1).1 w2 r2).1 ≠
        (criarCliente decode (criarCliente decode S w3 r2).1 w4 r1).1) := by
  rw [criarCliente_ok h2, criarCliente_ok h1, criarCliente_ok h1, criarCliente_ok h2]
  refine ⟨fun hne => Finmap.insert_insert_of_ne S hne, ?_⟩
  intro hid hne hEq
  have hl := congrArg (Finmap.lookup P2.ID) hEq
  simp only [] at hl
  rw [Finmap.lookup_insert, ← hid, Finmap.lookup_insert] at hl
  exact hne (Option.some.inj hl).symm

/-- C15 at concrete inputs: Ana (id 1) and Bia (id 2) commute; Ana and Ana
Lima, both with id 1, do not. -/
theorem criar_comuta_witness :
    (criarCliente decodeExemplo (criarCliente decodeExemplo clientes .novo ⟨corpoAna, []⟩).1
        .novo ⟨corpoBia, []⟩).1 =
      (criarCliente decodeExemplo (criarCliente decodeExemplo clientes .novo ⟨corpoBia, []⟩).1
        .novo ⟨corpoAna, []⟩).1 ∧
    (criarCliente decodeExemplo (criarCliente decodeExemplo clientes .novo ⟨corpoAna, []⟩).1
        .novo ⟨corpoAnaLima, []⟩).1 ≠
      (criarCliente decodeExemplo (criarCliente decodeExemplo clientes .novo ⟨corpoAnaLima, []⟩).1
        .novo ⟨corpoAna, []⟩).1 :=
  ⟨(criar_comuta decodeExemplo clientes .novo .novo .novo .novo ⟨corpoAna, []⟩ ⟨corpoBia, []⟩
      ⟨"1", "Ana", "ana@example.com"⟩ ⟨"2", "Bia", "bia@example.com"⟩ rfl rfl).1 (by decide),
   (criar_comuta decodeExemplo clientes .novo .novo .novo .novo ⟨corpoAna, []⟩
      ⟨corpoAnaLima, []⟩ ⟨"1", "Ana", "ana@example.com"⟩
      ⟨"1", "Ana Lima", "lima@example.com"⟩ rfl rfl).2 (by decide) (by decide)⟩

end ApiRest
